import Mathlib

/-!
Verification of the MeetingCam device-mapping and frame-processing runtime.

This file gives a shallow embedding of the relevant parts of the source
(`src/meetingcam/device.py`, `src/meetingcam/utils.py`, `src/meetingcam/runner.py`,
`src/meetingcam/plugins/depthai_yolov5_coco/plugin.py`) and proves or refutes
the specification claims about them.

Conventions of the embedding:
* Python exceptions are modelled with `Except PyErr`; `sys.exit` calls are
  modelled as distinguished `PyErr` values (`mismatchExit`) or as the
  `InitOutcome.exit` constructor, since they abort the computation.
* Python list comprehensions (which evaluate left to right and propagate the
  first exception) are modelled by `pyListComp`.
* Python `dict` insertion (keys kept in first-insertion order, values
  overwritten in place) is modelled by `pyDictSet` on association lists.
* Machine strings are Lean `String`s; the ids embedded in device paths and
  labels are natural numbers (they come from `re.findall (\d+)` digit runs and
  from `int(...)` on digit-only strings, which are non-negative).
-/

/-- Python runtime errors and process exits that the embedded code can produce. -/
inductive PyErr where
  /-- Python `IndexError`, e.g. `re.findall(...)[0]` on a label without digits,
      or indexing a list out of range. -/
  | indexError : PyErr
  /-- Python `ValueError`, e.g. `int(...)` on a non-numeric string. -/
  | valueError : PyErr
  /-- Python `NameError` / `UnboundLocalError`: a local variable is read before any
      assignment to it has executed. -/
  | nameError : PyErr
  /-- Python `RuntimeError` raised by `VideoCapture.get_frame` when the grab fails. -/
  | runtimeError : PyErr
  /-- The `except:`-guarded `sys.exit(0)` in `DeviceHandler.device_mapping`
      (webcam branch): the mismatch message is printed and the process exits. -/
  | mismatchExit : PyErr
  /-- Python `ValueError` with a message, raised by `KeyHandler.validate`. -/
  | valueMsg (msg : String) : PyErr
deriving DecidableEq, Repr

/-- Lift an `Option` to `Except`, raising `e` on `none`. -/
def liftOpt (e : PyErr) : Option α → Except PyErr α
  | none => .error e
  | some a => .ok a

/-- A Python list comprehension `[f x for x in l]`: elements are evaluated left
to right and the first exception propagates. -/
def pyListComp (f : α → Except PyErr β) : List α → Except PyErr (List β)
  | [] => .ok []
  | x :: xs =>
    match f x with
    | .error e => .error e
    | .ok y =>
      match pyListComp f xs with
      | .error e => .error e
      | .ok ys => .ok (y :: ys)

/-- Python's `list.index(x)`: the index of the first occurrence of `x`, `none`
when `x` is absent (where Python raises `ValueError`). -/
def pyIndex (l : List Nat) (x : Nat) : Option Nat :=
  match l with
  | [] => none
  | y :: ys => if y = x then some 0 else (pyIndex ys x).map (· + 1)

/-- The first maximal digit run of a character list (`re.findall(r"\d+", s)[0]`). -/
def firstDigitRun : List Char → Option (List Char)
  | [] => none
  | c :: cs => if c.isDigit then some (c :: cs.takeWhile Char.isDigit) else firstDigitRun cs

/-- Decimal value of a character list of digits (most significant first). -/
def digitsVal (ds : List Char) : Nat :=
  ds.foldl (fun n c => 10 * n + (c.toNat - 48)) 0

/-- Python `int(s)` on the strings this code feeds it: defined exactly on
non-empty all-digit strings (the ids are non-negative), `ValueError` otherwise. -/
def pyIntDigits (ds : List Char) : Option Nat :=
  if ds ≠ [] ∧ ds.all Char.isDigit then some (digitsVal ds) else none

/-- Embeds `int(re.findall(r"\d+", label)[0])`: the value of the first digit run of a
label, `none` when the label contains no digit (Python raises `IndexError`;
a digit run itself always parses). -/
def firstIntOfLabel (s : String) : Option Nat :=
  (firstDigitRun s.data).map digitsVal

/-- One fuelled step of Python `str.replace(old, "")`: remove each
non-overlapping occurrence of `pat`, scanning left to right.  Every step
consumes at least one character, so `fuel = length of the scanned list`
(supplied by `removeOccs`) never runs out. -/
def removeOccsAux (pat : List Char) : Nat → List Char → List Char
  | _, [] => []
  | 0, rest => rest
  | fuel + 1, c :: cs =>
    if pat ≠ [] ∧ pat.isPrefixOf (c :: cs) then
      removeOccsAux pat fuel (cs.drop (pat.length - 1))
    else
      c :: removeOccsAux pat fuel cs

/-- Python `s.replace(pat, "")` on character lists. -/
def removeOccs (pat s : List Char) : List Char :=
  removeOccsAux pat s.length s

/-- Embeds `int(path.replace("/dev/video", ""))`: remove every occurrence of
`"/dev/video"` and parse the rest as a decimal number. -/
def realIdOfPath (p : String) : Option Nat :=
  pyIntDigits (removeOccs "/dev/video".data p.data)

/-- Python's `needle in haystack` on strings (substring containment). -/
def pyInStr (needle haystack : String) : Bool :=
  go needle.data haystack.data
where
  /-- Helper: `go n h` holds when `n` is a contiguous sublist of `h`. -/
  go (n : List Char) : List Char → Bool
    | [] => n.isEmpty
    | c :: cs => n.isPrefixOf (c :: cs) || go n cs

/-- One row of the `device_map` dictionary built by
`DeviceHandler.device_mapping`. -/
structure DeviceEntry where
  path_real : String
  label_real : String
  path_virtual : String
  label_virtual : String
deriving DecidableEq, Repr

/-- The `for i, j in enumerate(mapping_indices)` loop of
`DeviceHandler.device_mapping`: entry `i` reads the real lists at index `j`
and the virtual lists at index `i`.  `i0` is the running value of `i`. -/
def buildEntriesAux (pr lr pv lv : List String) : Nat → List Nat → Except PyErr (List DeviceEntry)
  | _, [] => .ok []
  | i, j :: rest =>
    match pr.get? j, lr.get? j, pv.get? i, lv.get? i with
    | some pathr, some labelr, some pathv, some labelv =>
      match buildEntriesAux pr lr pv lv (i + 1) rest with
      | .error e => .error e
      | .ok tail =>
        .ok ({ path_real := pathr, label_real := labelr,
               path_virtual := pathv, label_virtual := labelv } :: tail)
    | _, _, _, _ => .error .indexError

/-- Embeds `[ids_real.index(id) for id in mapping_ids]`, the `try`-guarded list
comprehension: `none` as soon as one id has no occurrence. -/
def indexAll (ids_real : List Nat) : List Nat → Option (List Nat)
  | [] => some []
  | id :: rest =>
    match pyIndex ids_real id with
    | none => none
    | some j =>
      match indexAll ids_real rest with
      | none => none
      | some js => some (j :: js)

/-- The `self.type == WEBCAM` branch of `DeviceHandler.device_mapping`:
extract the first label-embedded integer of every virtual device, the trailing
path integer of every real device, look every virtual id up in the real ids
(`sys.exit(0)` via the bare `except:` when one is missing), then build the
entry list. -/
def webcamDeviceMapping (paths_real labels_real paths_virtual labels_virtual : List String) :
    Except PyErr (List DeviceEntry) :=
  Except.bind (pyListComp (fun l => liftOpt .indexError (firstIntOfLabel l)) labels_virtual)
    (fun mapping_ids =>
      Except.bind (pyListComp (fun p => liftOpt .valueError (realIdOfPath p)) paths_real)
        (fun ids_real =>
          match indexAll ids_real mapping_ids with
          | none => .error .mismatchExit
          | some mapping_indices =>
            buildEntriesAux paths_real labels_real paths_virtual labels_virtual 0 mapping_indices))

/-- The `self.type == DEPTHAI` branch of `DeviceHandler.device_mapping`:
`for i, mxid in enumerate(paths_real): for j, label in enumerate(labels_virtual):
if mxid in label: mapping_indices.append(j)`. -/
def depthaiMappingIndices (paths_real labels_virtual : List String) : List Nat :=
  paths_real.foldl
    (fun acc mxid =>
      acc ++ (labels_virtual.enum.filterMap
        (fun jl => if pyInStr mxid jl.2 then some jl.1 else none)))
    []

/-- The `self.type == DEPTHAI` branch of `DeviceHandler.device_mapping`,
including the shared entry-building loop. -/
def depthaiDeviceMapping (paths_real labels_real paths_virtual labels_virtual : List String) :
    Except PyErr (List DeviceEntry) :=
  buildEntriesAux paths_real labels_real paths_virtual labels_virtual 0
    (depthaiMappingIndices paths_real labels_virtual)

/-- The two supported device families (`constants.WEBCAM`, `constants.DEPTHAI`).
Any other value of `self.type` raises `NotImplementedError` in the source; the
two-valued type makes that branch unreachable. -/
inductive DeviceType where
  | webcam : DeviceType
  | depthai : DeviceType
deriving DecidableEq, Repr

/-- Embeds `DeviceHandler.device_mapping`, dispatching on `self.type`. -/
def device_mapping (t : DeviceType) (paths_real labels_real paths_virtual labels_virtual : List String) :
    Except PyErr (List DeviceEntry) :=
  match t with
  | .webcam => webcamDeviceMapping paths_real labels_real paths_virtual labels_virtual
  | .depthai => depthaiDeviceMapping paths_real labels_real paths_virtual labels_virtual

/-- Python `dict` assignment `d[k] = v` on an association list: the value of an
existing key is overwritten in place, a new key is appended (Python dicts keep
first-insertion order). -/
def pyDictSet (d : List (String × α)) (k : String) (v : α) : List (String × α) :=
  if d.any (fun p => p.1 == k) then
    d.map (fun p => if p.1 == k then (k, v) else p)
  else
    d ++ [(k, v)]

/-- Python `dict` lookup `d[k]` / `k in d.keys()` on an association list. -/
def pyDictGet (d : List (String × α)) (k : String) : Option α :=
  (d.find? (fun p => p.1 == k)).map (fun p => p.2)

/-- The dictionary comprehension at the top of `DeviceHandler.init_device`:
`{device["path_real"]: device["path_virtual"] for device in self.mapping.values()}`. -/
def deviceMapOf (mapping : List DeviceEntry) : List (String × String) :=
  mapping.foldl (fun d e => pyDictSet d e.path_real e.path_virtual) []

/-- How a call of `DeviceHandler.init_device` ends: `ret v` models
`return virtual_path` (the function returns the single string `v`), `exit`
models the `sys.exit()` calls (the process terminates). -/
inductive InitOutcome where
  | ret (virtual_path : String) : InitOutcome
  | exit : InitOutcome
deriving DecidableEq, Repr

/-- Embeds `DeviceHandler.init_device`.  The result is the outcome of the call
together with the final value of `self.real_path` (which starts as `None` and
is assigned before returning or exiting on two of the four paths). -/
def init_device (device_path : Option String) (mapping : List DeviceEntry) :
    InitOutcome × Option String :=
  let device_map := deviceMapOf mapping
  match device_path with
  | some p =>
    match pyDictGet device_map p with
    | some virtual_path => (.ret virtual_path, some p)
    | none =>
      -- prints device_not_available / available_devices / add_virtual_devices /
      -- run_main_command, then sys.exit()
      (.exit, none)
  | none =>
    match device_map with
    | [] =>
      -- prints the same guidance as the unmatched case, then sys.exit()
      (.exit, none)
    | (k, _) :: _ =>
      -- device = list(device_map.items())[0]; self.real_path = device[0];
      -- virtual_path = device[1]; prints available_devices and
      -- run_main_command, then sys.exit()
      (.exit, some k)

/-- A Python function object created by `add_trigger`'s inner `trigger_func`;
it captures the name of the variable it toggles.  Function objects are only
ever compared for identity or printed, never equal to a string. -/
structure TriggerFunc where
  var : String
deriving DecidableEq, Repr

/-- Python `==` between a `str` and a function object: always `False`
(`str.__eq__` returns `NotImplemented` and identity comparison fails), so
`variable in self.hotkeys.values()` can never hold. -/
def pyEqStrFunc (_s : String) (_f : TriggerFunc) : Bool :=
  false

/-- The mutable state of a `KeyHandler`: the `self.hotkeys` dictionary
(hotkey string to trigger function) and the dynamically `setattr`-created
boolean attributes (variable name to current value). -/
structure KeyHandlerState where
  hotkeys : List (String × TriggerFunc)
  attrs : List (String × Bool)
deriving DecidableEq, Repr

/-- Embeds `KeyHandler.validate`: the `isinstance` checks always pass for string
arguments; then `variable in self.hotkeys.values()` is tested (against the
stored trigger functions) and `hotkey in self.hotkeys.keys()` is tested. -/
def validate (st : KeyHandlerState) (hotkey varName : String) : Except PyErr Unit :=
  if (st.hotkeys.map (fun p => p.2)).any (pyEqStrFunc varName) then
    .error (.valueMsg "Variable name already exists.")
  else if (st.hotkeys.map (fun p => p.1)).any (fun k => k == hotkey) then
    .error (.valueMsg "Hotkey already exists.")
  else
    .ok ()

/-- Embeds `KeyHandler.add_trigger`: validate, `setattr(self, variable, enabled)`,
then `self.hotkeys[hotkey] = trigger_func`. -/
def add_trigger (st : KeyHandlerState) (hotkey varName : String) (enabled : Bool) :
    Except PyErr KeyHandlerState := do
  validate st hotkey varName
  let attrs := pyDictSet st.attrs varName enabled
  let hotkeys := pyDictSet st.hotkeys hotkey ⟨varName⟩
  .ok ⟨hotkeys, attrs⟩

/-- One plugin-declared hotkey (the `Hotkey` data class): key combination,
variable name, initial value. -/
structure HotkeyDecl where
  hotkey : String
  varName : String
  enabled : Bool
deriving DecidableEq, Repr

/-- Embeds `KeyHandler.__init__`: registers the two default hotkeys and then the
plugin-contributed ones via `add_trigger`; the `GlobalHotKeys` keyboard hook is
only installed afterwards (by `super().__init__` and `listener.start()`), so
any registration error is raised before a hook exists. -/
def keyHandlerInit (plugin_hotkeys : List HotkeyDecl) : Except PyErr KeyHandlerState := do
  let st0 : KeyHandlerState := ⟨[], []⟩
  let st1 ← add_trigger st0 "<ctrl>+<alt>+r" "bgr2rgb" false
  let st2 ← add_trigger st1 "<ctrl>+<alt>+m" "mirror" true
  plugin_hotkeys.foldlM (fun st h => add_trigger st h.hotkey h.varName h.enabled) st2

/-- Python `getattr(obj, name)`: `none` models the `AttributeError` raised when
no attribute of that name exists. -/
def pyGetAttr (st : KeyHandlerState) (name : String) : Option Bool :=
  pyDictGet st.attrs name

/-- Value of `constants.MAX_WIDTH`. -/
def MAX_WIDTH : Nat := 1280

/-- Value of `constants.MAX_HEIGHT`. -/
def MAX_HEIGHT : Nat := 720

/-- The shape of an image array: `image.shape[0]` is the height,
`image.shape[1]` the width. -/
structure ImgShape where
  height : Nat
  width : Nat
deriving DecidableEq, Repr

/-- Embeds `ImageHandler.correct_img_size`, tracked on shapes: when either dimension
exceeds its maximum, `cv2.resize(image, (w, h))` with `h = min(shape0, MAX_HEIGHT)`
and `w = min(shape1, MAX_WIDTH)` produces an image of exactly that shape. -/
def correct_img_size (image : ImgShape) : ImgShape :=
  if image.height > MAX_HEIGHT ∨ image.width > MAX_WIDTH then
    { height := min image.height MAX_HEIGHT, width := min image.width MAX_WIDTH }
  else
    image

/-- Embeds `VideoCapture.get_frame`, tracked on shapes: `self.read()` yields a
`grabbed` flag and a frame; a failed grab raises `RuntimeError`; otherwise the
frame is size-corrected and returned together with `None` (a webcam has no
detections). -/
def get_frame (grabbed : Bool) (frame : ImgShape) : Except PyErr (ImgShape × Option Unit) :=
  if grabbed then
    .ok (correct_img_size frame, none)
  else
    .error .runtimeError

/-- A pixel as a triple of channel values in storage order. -/
abbrev Pixel := Nat × Nat × Nat

/-- A raster frame: a list of rows of pixels. -/
abbrev RawFrame := List (List Pixel)

/-- Embeds `cv2.cvtColor(frame, code)` for `code` in `COLOR_RGB2BGR` / `COLOR_BGR2RGB`:
both swap the first and third channel of every pixel. -/
def cvtColorSwapRB (frame : RawFrame) : RawFrame :=
  frame.map (fun row => row.map (fun px => (px.2.2, px.2.1, px.1)))

/-- Embeds `cv2.flip(frame, 1)`: horizontal flip, i.e. every row reversed. -/
def flipHorizontal (frame : RawFrame) : RawFrame :=
  frame.map List.reverse

/-- The calls the loop body makes on the virtual camera sink. -/
inductive SinkEvent where
  | send (frame : RawFrame) : SinkEvent
  | sleepUntilNextFrame : SinkEvent
deriving DecidableEq

/-- The body of the `while True:` loop in `Runner.run`, given the values the
listener attributes have at this iteration and the already-acquired
`(frame, detection)` pair; the result is the sequence of sink calls the
iteration performs.  Each `let` mirrors one statement of the source. -/
def runIteration {Det : Type} (bgr2rgb_sw mirror_sw f_trig l_trig n_trig : Bool)
    (process : RawFrame → Option Det → Bool × Bool × Bool → RawFrame)
    (frame : RawFrame) (detection : Option Det) : List SinkEvent :=
  let frame := if bgr2rgb_sw then cvtColorSwapRB frame else frame
  let trigger := (f_trig, l_trig, n_trig)
  let frame := process frame detection trigger
  let frame := if mirror_sw then flipHorizontal frame else frame
  let frame := cvtColorSwapRB frame
  [.send frame, .sleepUntilNextFrame]

/-- The attribute name `Runner.run` reads for the color-swap toggle
(`listener.bgr2rgb_sw`, runner.py line 71). -/
def runnerBgr2rgbAttr : String := "bgr2rgb_sw"

/-- The attribute name `Runner.run` reads for the mirror toggle
(`listener.mirror_sw`, runner.py line 83). -/
def runnerMirrorAttr : String := "mirror_sw"

/-- Configuration of one on-device output queue
(`device.getOutputQueue(name=..., maxSize=..., blocking=...)`). -/
structure QueueConfig where
  name : String
  maxSize : Nat
  blocking : Bool
deriving DecidableEq, Repr

/-- Embeds `Yolov5.device_setup`: the rgb and nn output queues it creates. -/
def yolov5DeviceSetup : QueueConfig × QueueConfig :=
  (⟨"rgb", 1, false⟩, ⟨"nn", 1, false⟩)

/-- Embeds `Yolov5.acquisition`, given the results of the two queue reads (`none`
models an empty poll).  `image` is assigned only under `if inRgb is not None:`
and `detections` only under the nested `if inDet is not None:`, so
`return image, detections` raises `NameError` whenever the corresponding
queue read produced nothing. -/
def yolov5Acquisition {Frame Det : Type} (inRgb : Option Frame) (inDet : Option Det) :
    Except PyErr (Frame × Det) :=
  match inRgb with
  | none => .error .nameError
  | some image =>
    match inDet with
    | none => .error .nameError
    | some detections => .ok (image, detections)

/-- A successful `pyListComp` produces one output element per input element. -/
theorem pyListComp_ok_length {α β : Type} (f : α → Except PyErr β) :
    ∀ (l : List α) (ys : List β), pyListComp f l = .ok ys → ys.length = l.length := by
  intro l
  induction l with
  | nil =>
    intro ys h
    simp only [pyListComp] at h
    cases h
    rfl
  | cons x xs ih =>
    intro ys h
    simp only [pyListComp] at h
    cases hfx : f x with
    | error e => rw [hfx] at h; cases h
    | ok y =>
      rw [hfx] at h
      cases hrec : pyListComp f xs with
      | error e => rw [hrec] at h; cases h
      | ok zs =>
        rw [hrec] at h
        cases h
        simp [ih zs hrec]

/-- The function `pyIndex` returns an index at which the element occurs. -/
theorem pyIndex_get? (x : Nat) :
    ∀ (l : List Nat) (j : Nat), pyIndex l x = some j → l.get? j = some x := by
  intro l
  induction l with
  | nil => intro j h; simp [pyIndex] at h
  | cons y ys ih =>
    intro j h
    simp only [pyIndex] at h
    by_cases hyx : y = x
    · rw [if_pos hyx] at h
      cases h
      simp [hyx]
    · rw [if_neg hyx] at h
      rcases Option.map_eq_some'.mp h with ⟨j', hj', rfl⟩
      simpa using ih j' hj'

/-- The function `pyIndex` succeeds on every element of the list. -/
theorem pyIndex_isSome_of_mem {l : List Nat} {x : Nat} (h : x ∈ l) :
    ∃ j, pyIndex l x = some j := by
  induction l with
  | nil => cases h
  | cons y ys ih =>
    by_cases hyx : y = x
    · exact ⟨0, by simp [pyIndex, hyx]⟩
    · have hx : x ∈ ys := by
        cases h with
        | head => exact absurd rfl hyx
        | tail _ h' => exact h'
      obtain ⟨j, hj⟩ := ih hx
      exact ⟨j + 1, by simp [pyIndex, hyx, hj]⟩

/-- The function `pyIndex` fails exactly on absent elements. -/
theorem pyIndex_eq_none {l : List Nat} {x : Nat} (h : x ∉ l) :
    pyIndex l x = none := by
  induction l with
  | nil => rfl
  | cons y ys ih =>
    have hyx : y ≠ x := fun e => h (e ▸ List.mem_cons_self y ys)
    have hys : x ∉ ys := fun e => h (List.mem_cons_of_mem _ e)
    simp [pyIndex, hyx, ih hys]

/-- When every id occurs among the real ids, `indexAll` succeeds and returns,
position by position, the `pyIndex` of each id. -/
theorem indexAll_ok (rids : List Nat) :
    ∀ (mids : List Nat), (∀ id ∈ mids, id ∈ rids) →
      ∃ idxs, indexAll rids mids = some idxs ∧ idxs.length = mids.length ∧
        (∀ i id, mids.get? i = some id →
          ∃ j, idxs.get? i = some j ∧ pyIndex rids id = some j) := by
  intro mids
  induction mids with
  | nil =>
    intro _
    exact ⟨[], rfl, rfl, by intro i id h; simp at h⟩
  | cons id rest ih =>
    intro hmem
    obtain ⟨j, hj⟩ := pyIndex_isSome_of_mem (hmem id (List.mem_cons_self id rest))
    obtain ⟨idxs, hidxs, hlen, hget⟩ := ih (fun x hx => hmem x (List.mem_cons_of_mem _ hx))
    refine ⟨j :: idxs, ?_, by simp [hlen], ?_⟩
    · simp only [indexAll]
      rw [hj, hidxs]
    · intro i id' hi
      cases i with
      | zero =>
        simp only [List.get?] at hi
        cases hi
        exact ⟨j, rfl, hj⟩
      | succ n =>
        simp only [List.get?] at hi
        exact hget n id' hi

/-- When some id has no occurrence among the real ids, `indexAll` fails. -/
theorem indexAll_none (rids : List Nat) :
    ∀ (mids : List Nat) (id : Nat), id ∈ mids → pyIndex rids id = none →
      indexAll rids mids = none := by
  intro mids
  induction mids with
  | nil => intro id h; cases h
  | cons y rest ih =>
    intro id hmem hnone
    simp only [indexAll]
    cases hy : pyIndex rids y with
    | none => rfl
    | some j =>
      have hid : id ∈ rest := by
        cases hmem with
        | head => rw [hy] at hnone; cases hnone
        | tail _ h' => exact h'
      rw [ih id hid hnone]

/-- When every index is in range for the real lists and the virtual lists are
long enough from position `i0` on, `buildEntriesAux` succeeds; entry `k` reads
the real lists at `idxs[k]` and the virtual lists at `i0 + k`. -/
theorem buildEntriesAux_ok (pr lr pv lv : List String) :
    ∀ (idxs : List Nat) (i0 : Nat),
      (∀ j ∈ idxs, j < pr.length ∧ j < lr.length) →
      i0 + idxs.length ≤ pv.length → i0 + idxs.length ≤ lv.length →
      ∃ es, buildEntriesAux pr lr pv lv i0 idxs = .ok es ∧ es.length = idxs.length ∧
        ∀ k j e, idxs.get? k = some j → es.get? k = some e →
          pr.get? j = some e.path_real ∧ lr.get? j = some e.label_real ∧
          pv.get? (i0 + k) = some e.path_virtual ∧ lv.get? (i0 + k) = some e.label_virtual := by
  intro idxs
  induction idxs with
  | nil =>
    intro i0 _ _ _
    exact ⟨[], rfl, rfl, by intro k j e h; simp at h⟩
  | cons j rest ih =>
    intro i0 hb hpv hlv
    have hj := hb j (List.mem_cons_self j rest)
    have hi0v : i0 < pv.length := by simp only [List.length_cons] at hpv; omega
    have hi0l : i0 < lv.length := by simp only [List.length_cons] at hlv; omega
    obtain ⟨es, hes, hlen, hget⟩ :=
      ih (i0 + 1) (fun x hx => hb x (List.mem_cons_of_mem _ hx))
        (by simp only [List.length_cons] at hpv; omega)
        (by simp only [List.length_cons] at hlv; omega)
    refine ⟨{ path_real := pr.get ⟨j, hj.1⟩, label_real := lr.get ⟨j, hj.2⟩,
              path_virtual := pv.get ⟨i0, hi0v⟩, label_virtual := lv.get ⟨i0, hi0l⟩ } :: es,
            ?_, by simp [hlen], ?_⟩
    · simp only [buildEntriesAux]
      rw [List.get?_eq_get hj.1, List.get?_eq_get hj.2, List.get?_eq_get hi0v,
        List.get?_eq_get hi0l, hes]
    · intro k j' e hk he
      cases k with
      | zero =>
        simp only [List.get?] at hk he
        cases hk
        cases he
        refine ⟨List.get?_eq_get hj.1, List.get?_eq_get hj.2, ?_, ?_⟩
        · simp only [Nat.add_zero]
          exact List.get?_eq_get hi0v
        · simp only [Nat.add_zero]
          exact List.get?_eq_get hi0l
      | succ n =>
        simp only [List.get?] at hk he
        have harith : i0 + (n + 1) = (i0 + 1) + n := by omega
        rw [harith]
        exact hget n j' e hk he

/-- C1: for the webcam family, given physical records whose paths end in
distinct numeric ids and virtual records whose labels embed distinct numeric
ids (each with a physical counterpart), `device_mapping` produces one entry per
virtual record, in the iteration order of the virtual-device list, and pairs
each virtual record with a physical record whose path-embedded id equals the
virtual record's first label-embedded integer. -/
theorem webcam_mapping_pairs_by_id_in_virtual_order
    (pr lr pv lv : List String) (mids rids : List Nat)
    (hm : pyListComp (fun l => liftOpt .indexError (firstIntOfLabel l)) lv = .ok mids)
    (hr : pyListComp (fun p => liftOpt .valueError (realIdOfPath p)) pr = .ok rids)
    (_hdistinctR : rids.Nodup) (_hdistinctV : mids.Nodup)
    (hsub : ∀ id ∈ mids, id ∈ rids)
    (hlenr : lr.length = pr.length)
    (hlenv : pv.length = lv.length) :
    ∃ entries, device_mapping .webcam pr lr pv lv = .ok entries ∧
      entries.length = lv.length ∧
      ∀ i e, entries.get? i = some e →
        pv.get? i = some e.path_virtual ∧ lv.get? i = some e.label_virtual ∧
        ∃ j id, pr.get? j = some e.path_real ∧ rids.get? j = some id ∧
          mids.get? i = some id := by
  have hmlen : mids.length = lv.length := pyListComp_ok_length _ lv mids hm
  have hrlen : rids.length = pr.length := pyListComp_ok_length _ pr rids hr
  obtain ⟨idxs, hidxs, hilen, higet⟩ := indexAll_ok rids mids hsub
  have hbound : ∀ j ∈ idxs, j < pr.length ∧ j < lr.length := by
    intro j hj
    obtain ⟨k, hk⟩ := List.get?_of_mem hj
    obtain ⟨hklt, _⟩ := List.get?_eq_some.mp hk
    have hkm : k < mids.length := by omega
    obtain ⟨id, hid⟩ : ∃ id, mids.get? k = some id :=
      ⟨mids.get ⟨k, hkm⟩, List.get?_eq_get hkm⟩
    obtain ⟨j', hj', hpy⟩ := higet k id hid
    rw [hk] at hj'
    cases hj'
    obtain ⟨hjlt, _⟩ := List.get?_eq_some.mp (pyIndex_get? id rids j hpy)
    constructor <;> omega
  obtain ⟨es, hes, heslen, heget⟩ :=
    buildEntriesAux_ok pr lr pv lv idxs 0 hbound (by omega) (by omega)
  refine ⟨es, ?_, by omega, ?_⟩
  · simp only [device_mapping, webcamDeviceMapping, hm, hr, Except.bind]
    rw [hidxs]
    exact hes
  · intro i e he
    obtain ⟨hilt, _⟩ := List.get?_eq_some.mp he
    have hiidx : i < idxs.length := by omega
    obtain ⟨j, hj⟩ : ∃ j, idxs.get? i = some j :=
      ⟨idxs.get ⟨i, hiidx⟩, List.get?_eq_get hiidx⟩
    obtain ⟨h1, h2, h3, h4⟩ := heget i j e hj he
    have him : i < mids.length := by omega
    obtain ⟨id, hid⟩ : ∃ id, mids.get? i = some id :=
      ⟨mids.get ⟨i, him⟩, List.get?_eq_get him⟩
    obtain ⟨j', hj', hpy⟩ := higet i id hid
    rw [hj] at hj'
    cases hj'
    have hrid := pyIndex_get? id rids j hpy
    exact ⟨by simpa using h3, by simpa using h4, j, id, h1, hrid, hid⟩

/-- C1 witness: three physical webcams with ids 0, 1, 2 and two virtual
devices labelled with ids 2 and 0; the mapping pairs them by id in
virtual-list order. -/
theorem webcam_mapping_pairs_by_id_in_virtual_order_witness :
    (∀ id ∈ ([2, 0] : List Nat), id ∈ ([0, 1, 2] : List Nat)) ∧
    (∃ entries, device_mapping .webcam ["/dev/video0", "/dev/video1", "/dev/video2"]
        ["Cam A", "Cam B", "Cam C"] ["/dev/video12", "/dev/video13"]
        ["MeetingCam2 Test", "MeetingCam0 Cam"] = .ok entries ∧
      entries.length = (["MeetingCam2 Test", "MeetingCam0 Cam"] : List String).length ∧
      ∀ i e, entries.get? i = some e →
        (["/dev/video12", "/dev/video13"] : List String).get? i = some e.path_virtual ∧
        (["MeetingCam2 Test", "MeetingCam0 Cam"] : List String).get? i = some e.label_virtual ∧
        ∃ j id, (["/dev/video0", "/dev/video1", "/dev/video2"] : List String).get? j =
            some e.path_real ∧
          ([0, 1, 2] : List Nat).get? j = some id ∧ ([2, 0] : List Nat).get? i = some id) :=
  ⟨by decide,
   webcam_mapping_pairs_by_id_in_virtual_order
     ["/dev/video0", "/dev/video1", "/dev/video2"] ["Cam A", "Cam B", "Cam C"]
     ["/dev/video12", "/dev/video13"] ["MeetingCam2 Test", "MeetingCam0 Cam"]
     [2, 0] [0, 1, 2] rfl rfl (by decide) (by decide) (by decide) rfl rfl⟩

/-- C6: for the webcam family, when some virtual label embeds an id with no
matching physical path id (and both extraction passes themselves succeed), the
mapping ends in the guarded `sys.exit(0)` mismatch signal instead of returning
a list with that entry dropped. -/
theorem webcam_mapping_unmatched_id_exits
    (pr lr pv lv : List String) (mids rids : List Nat)
    (hm : pyListComp (fun l => liftOpt .indexError (firstIntOfLabel l)) lv = .ok mids)
    (hr : pyListComp (fun p => liftOpt .valueError (realIdOfPath p)) pr = .ok rids)
    (id : Nat) (hmem : id ∈ mids) (hnot : id ∉ rids) :
    device_mapping .webcam pr lr pv lv = .error .mismatchExit := by
  have hnone : indexAll rids mids = none :=
    indexAll_none rids mids id hmem (pyIndex_eq_none hnot)
  simp only [device_mapping, webcamDeviceMapping, hm, hr, Except.bind]
  rw [hnone]

/-- C6 witness: one physical webcam with id 0 and one virtual device labelled
with id 5; the mapping exits with the mismatch message. -/
theorem webcam_mapping_unmatched_id_exits_witness :
    (5 : Nat) ∈ ([5] : List Nat) ∧ (5 : Nat) ∉ ([0] : List Nat) ∧
    device_mapping .webcam ["/dev/video0"] ["Cam A"] ["/dev/video12"]
      ["MeetingCam5 X"] = .error .mismatchExit :=
  ⟨by decide, by decide,
   webcam_mapping_unmatched_id_exits ["/dev/video0"] ["Cam A"] ["/dev/video12"]
     ["MeetingCam5 X"] [5] [0] rfl rfl 5 (by decide) (by decide)⟩

/-- C2 counterexample: with one correlated entry and no requested device path,
`init_device` does not return the entry's pair — it records the first entry's
physical path in `self.real_path`, prints the device table, and calls
`sys.exit()`. -/
theorem init_device_autoselect_counterexample :
    init_device none [⟨"/dev/video1", "Cam B", "/dev/video11", "MeetingCam1 Cam B"⟩] =
      (InitOutcome.exit, some "/dev/video1") ∧
    (init_device none [⟨"/dev/video1", "Cam B", "/dev/video11", "MeetingCam1 Cam B"⟩]).1 ≠
      InitOutcome.ret "/dev/video11" := by
  constructor
  · rfl
  · decide

/-- C2 amended: when no device path is requested and the device map is
non-empty, `init_device` stores the first entry's physical path in
`self.real_path`, prints the device table and run instructions, and exits the
process instead of returning. -/
theorem init_device_autoselect_prints_and_exits
    (mapping : List DeviceEntry) (k v : String) (rest : List (String × String))
    (h : deviceMapOf mapping = (k, v) :: rest) :
    init_device none mapping = (InitOutcome.exit, some k) := by
  simp only [init_device, h]

/-- C2 amended witness: a single-entry mapping makes `init_device` exit with
the entry's physical path recorded. -/
theorem init_device_autoselect_prints_and_exits_witness :
    deviceMapOf [⟨"/dev/video3", "Cam D", "/dev/video13", "MeetingCam3 Cam D"⟩] =
      [("/dev/video3", "/dev/video13")] ∧
    init_device none [⟨"/dev/video3", "Cam D", "/dev/video13", "MeetingCam3 Cam D"⟩] =
      (InitOutcome.exit, some "/dev/video3") :=
  ⟨rfl,
   init_device_autoselect_prints_and_exits
     [⟨"/dev/video3", "Cam D", "/dev/video13", "MeetingCam3 Cam D"⟩]
     "/dev/video3" "/dev/video13" [] rfl⟩

/-- C3: with a requested path that matches an entry's physical path,
`init_device` evaluates `return virtual_path` — the call yields only the
virtual path string (the physical path is stored in `self.real_path`), not the
`tuple[str, str]` its docstring and annotation promise. -/
theorem init_device_matched_returns_virtual_only :
    init_device (some "/dev/video0")
        [⟨"/dev/video0", "HD Cam", "/dev/video10", "MeetingCam0 HD Cam"⟩] =
      (InitOutcome.ret "/dev/video10", some "/dev/video0") := by
  rfl

/-- C4: the depthai branch indexes `paths_real` with indices collected from the
virtual list, so an entry's physical path can come from an unrelated physical
record: with mxids AAA1, BBB2, CCC3 and virtual labels naming BBB2, CCC3, AAA1,
the first entry pairs the virtual device labelled "oak BBB2" with the physical
path "CCC3", whose identifier does not occur in that label (the physical record
that does match it is BBB2). -/
theorem depthai_mapping_unrelated_index :
    device_mapping .depthai ["AAA1", "BBB2", "CCC3"] ["rA", "rB", "rC"]
        ["/dev/video10", "/dev/video11", "/dev/video12"]
        ["oak BBB2", "oak CCC3", "oak AAA1"] =
      .ok [⟨"CCC3", "rC", "/dev/video10", "oak BBB2"⟩,
           ⟨"AAA1", "rA", "/dev/video11", "oak CCC3"⟩,
           ⟨"BBB2", "rB", "/dev/video12", "oak AAA1"⟩] ∧
    pyInStr "CCC3" "oak BBB2" = false ∧
    pyInStr "BBB2" "oak BBB2" = true := by
  refine ⟨rfl, rfl, rfl⟩

/-- C5: registering a second flag with the same variable name but a different
key combination is accepted silently — `validate` compares the name against the
stored trigger functions, which can never be equal to a string — and the
attribute is overwritten; only a duplicate key combination is rejected. -/
theorem keyhandler_name_collision_not_rejected :
    add_trigger ⟨[("<ctrl>+<alt>+r", ⟨"bgr2rgb"⟩)], [("bgr2rgb", false)]⟩
        "<ctrl>+<alt>+x" "bgr2rgb" true =
      .ok ⟨[("<ctrl>+<alt>+r", ⟨"bgr2rgb"⟩), ("<ctrl>+<alt>+x", ⟨"bgr2rgb"⟩)],
           [("bgr2rgb", true)]⟩ ∧
    add_trigger ⟨[("<ctrl>+<alt>+r", ⟨"bgr2rgb"⟩)], [("bgr2rgb", false)]⟩
        "<ctrl>+<alt>+r" "other" true =
      .error (.valueMsg "Hotkey already exists.") := by
  refine ⟨rfl, rfl⟩

/-- C7: the resolution ceiling is applied per axis: each output dimension is
the minimum of the input dimension and its ceiling (so a dimension over the
ceiling becomes exactly the ceiling and one at or under it is unchanged),
independent of the other axis; in particular 1000x800 becomes 720x800 and
600x1500 becomes 600x1280, and `get_frame` returns the size-corrected frame
(the correction happens before the frame leaves acquisition). -/
theorem correct_img_size_axis_independent :
    (∀ image : ImgShape,
      (correct_img_size image).height = min image.height MAX_HEIGHT ∧
      (correct_img_size image).width = min image.width MAX_WIDTH) ∧
    correct_img_size ⟨1000, 800⟩ = ⟨720, 800⟩ ∧
    correct_img_size ⟨600, 1500⟩ = ⟨600, 1280⟩ ∧
    (∀ frame : ImgShape, get_frame true frame = .ok (correct_img_size frame, none)) := by
  refine ⟨?_, by decide, by decide, fun frame => rfl⟩
  intro image
  simp only [correct_img_size, MAX_HEIGHT, MAX_WIDTH]
  by_cases h : image.height > 720 ∨ image.width > 1280
  · rw [if_pos h]
    exact ⟨rfl, rfl⟩
  · rw [if_neg h]
    push_neg at h
    constructor <;> omega

/-- C8: one iteration of the `Runner.run` loop sends to the virtual camera
exactly the frame obtained by: optional red/blue swap when the bgr2rgb flag is
on, then the plugin's `process`, then optional horizontal flip when the mirror
flag is on, then the unconditional sink color conversion (applied for either
value of the bgr2rgb flag); the pacing wait follows the send. -/
theorem runIteration_transform_order {Det : Type}
    (b m f l n : Bool) (process : RawFrame → Option Det → Bool × Bool × Bool → RawFrame)
    (frame : RawFrame) (detection : Option Det) :
    runIteration b m f l n process frame detection =
      [SinkEvent.send (cvtColorSwapRB
          ((if m then flipHorizontal else id)
            (process ((if b then cvtColorSwapRB else id) frame) detection (f, l, n)))),
       SinkEvent.sleepUntilNextFrame] := by
  cases b <;> cases m <;> rfl

/-- C9: `Yolov5.device_setup` does create two depth-1 non-blocking queues, but
when the detection queue yields nothing `Yolov5.acquisition` raises `NameError`
(the local `detections` is only assigned under `if inDet is not None:`) instead
of returning the frame with an absent detection set; with both present it
returns the pair. -/
theorem yolov5_acquisition_missing_detection_raises :
    yolov5DeviceSetup = (⟨"rgb", 1, false⟩, ⟨"nn", 1, false⟩) ∧
    yolov5Acquisition (some (0 : Nat)) (none : Option (List Nat)) = .error .nameError ∧
    yolov5Acquisition (some (0 : Nat)) (some ([] : List Nat)) = .ok (0, []) := by
  refine ⟨rfl, rfl, rfl⟩

/-- C10: a `KeyHandler` built with no plugin flags registers exactly the two
default flags — "bgr2rgb" on ctrl+alt+r starting `False` and "mirror" on
ctrl+alt+m starting `True` — but the loop in `Runner.run` reads the attributes
"mirror_sw" and "bgr2rgb_sw", which this handler does not define, so the first
iteration raises `AttributeError` instead of mirroring frames by default. -/
theorem keyhandler_defaults_runner_attr_mismatch :
    keyHandlerInit [] =
      .ok ⟨[("<ctrl>+<alt>+r", ⟨"bgr2rgb"⟩), ("<ctrl>+<alt>+m", ⟨"mirror"⟩)],
           [("bgr2rgb", false), ("mirror", true)]⟩ ∧
    pyGetAttr ⟨[("<ctrl>+<alt>+r", ⟨"bgr2rgb"⟩), ("<ctrl>+<alt>+m", ⟨"mirror"⟩)],
               [("bgr2rgb", false), ("mirror", true)]⟩ "mirror" = some true ∧
    pyGetAttr ⟨[("<ctrl>+<alt>+r", ⟨"bgr2rgb"⟩), ("<ctrl>+<alt>+m", ⟨"mirror"⟩)],
               [("bgr2rgb", false), ("mirror", true)]⟩ "bgr2rgb" = some false ∧
    pyGetAttr ⟨[("<ctrl>+<alt>+r", ⟨"bgr2rgb"⟩), ("<ctrl>+<alt>+m", ⟨"mirror"⟩)],
               [("bgr2rgb", false), ("mirror", true)]⟩ runnerMirrorAttr = none ∧
    pyGetAttr ⟨[("<ctrl>+<alt>+r", ⟨"bgr2rgb"⟩), ("<ctrl>+<alt>+m", ⟨"mirror"⟩)],
               [("bgr2rgb", false), ("mirror", true)]⟩ runnerBgr2rgbAttr = none := by
  refine ⟨rfl, rfl, rfl, rfl, rfl⟩
